import Mathlib

/-!
tikz2png — verification of the orchestration core

Shallow embedding of `src/tikz2png/converter.py` and
`src/tikz2png/directories.py`.  File-system paths are modelled as
(directory, stem, extension) triples, matching how the code manipulates
them (`tex_file.parent`, `tex_file.stem`, `f"{stem}{ext}"`).  Modification
times are integers; fallible Python code (code that may raise) is embedded
as `Except Err _`; the results of external subprocesses and of the
injectable component interfaces are passed in as explicit parameters.
-/

namespace Tikz2png

/-- A filesystem path, as the code uses it: a containing directory, a
stem and an extension.  `pathlib.Path.parent` is the `dir` field,
`.stem` the `stem` field, and `.name` is `stem ++ ext`. -/
structure Path where
  dir : String
  stem : String
  ext : String
deriving DecidableEq, Repr

/-- Python `Path.name`: the final component, stem plus extension. -/
def Path.name (p : Path) : String := p.stem ++ p.ext

/-- The exception classes the code can raise, mirroring
`errors.py` (`LaTeXError`, `ImageMagickError`) and the built-in
exceptions (`FileNotFoundError`, `NotADirectoryError`,
`PermissionError`) used in `converter.py` / `directories.py`.
Each carries the formatted message the code attaches. -/
inductive Err where
  | fileNotFound (msg : String)
  | notADirectory (msg : String)
  | permissionError (msg : String)
  | latexError (msg : String)
  | imageMagickError (msg : String)
deriving DecidableEq, Repr

instance {ε α : Type} [DecidableEq ε] [DecidableEq α] :
    DecidableEq (Except ε α) := fun a b =>
  match a, b with
  | .ok x, .ok y =>
    if h : x = y then isTrue (congrArg Except.ok h)
    else isFalse (fun hh => h (Except.ok.inj hh))
  | .ok _, .error _ => isFalse (fun h => Except.noConfusion h)
  | .error _, .ok _ => isFalse (fun h => Except.noConfusion h)
  | .error e, .error f =>
    if h : e = f then isTrue (congrArg Except.error h)
    else isFalse (fun hh => h (Except.error.inj hh))

/-- The observable state of the filesystem that `FileManager.needs_update`
consults: which paths exist, and each path's modification time
(`stat().st_mtime`).  `stat` on a missing path raises, which the
embedding makes explicit below. -/
structure FS where
  pexists : Path → Bool
  mtime : Path → Int

/-- Model of `os.stat` / `Path.stat().st_mtime`: returns the mtime, raising
`FileNotFoundError` when the path does not exist. -/
def FS.stat (fs : FS) (p : Path) : Except Err Int :=
  if fs.pexists p then .ok (fs.mtime p) else .error (.fileNotFound p.name)

/-- Embeds `FileManager.needs_update` (converter.py:135-145): if the PNG does
not exist, return `True`; otherwise compare the two files' modification
times and return whether the source is strictly newer.  The two `stat`
calls can raise when the corresponding file is missing; that exception
propagates to the caller. -/
def needs_update (fs : FS) (tex_file png_file : Path) : Except Err Bool :=
  if fs.pexists png_file = false then .ok true
  else
    match fs.stat tex_file with
    | .error e => .error e
    | .ok texM =>
      match fs.stat png_file with
      | .error e => .error e
      | .ok pngM => .ok (decide (texM > pngM))

/-- C1.  `needs_update` returns true when the output is missing; when
both files exist it returns exactly the strict comparison of mtimes, and
in particular false on equal mtimes. -/
theorem needs_update_spec (fs : FS) (tex png : Path) :
    (fs.pexists png = false → needs_update fs tex png = .ok true) ∧
    (fs.pexists png = true → fs.pexists tex = true →
      needs_update fs tex png = .ok (decide (fs.mtime tex > fs.mtime png))) ∧
    (fs.pexists png = true → fs.pexists tex = true →
      fs.mtime tex = fs.mtime png → needs_update fs tex png = .ok false) := by
  refine ⟨fun h => ?_, fun hp ht => ?_, fun hp ht he => ?_⟩
  · simp [needs_update, h]
  · simp [needs_update, FS.stat, hp, ht]
  · simp [needs_update, FS.stat, hp, ht, he]

/-- A sample filesystem for concrete evaluation in witnesses. -/
def texA : Path := ⟨"Assets/TikZ", "fig", ".tex"⟩

/-- The output path paired with `texA` in the witness filesystem. -/
def pngA : Path := ⟨"Assets/figures", "fig", ".png"⟩

/-- Witness filesystem: source and output both exist, with equal mtimes. -/
def fsEq : FS :=
  { pexists := fun p => decide (p = texA) || decide (p = pngA)
    mtime := fun _ => 100 }

/-- Witness for C1 at a concrete input: equal timestamps give `ok false`. -/
theorem needs_update_spec_witness :
    needs_update fsEq texA pngA = .ok false :=
  (needs_update_spec fsEq texA pngA).2.2 (by decide) (by decide) rfl

/-! ## `extract_latex_errors` (converter.py:165-178)

Strings are handled at the level of their character lists.  The helpers
below embed the Python string operations the function uses:
`str.splitlines` (modelled for the line terminators `\n`, `\r\n`, `\r`;
Python additionally splits on rarer control characters, which the inputs
at issue do not contain), `str.strip`, `str.lower` (ASCII case mapping),
and substring membership (`x in line`). -/

/-- The characters `str.strip()` removes (ASCII whitespace). -/
def isPyWhitespace (c : Char) : Bool :=
  c = ' ' || c = '\t' || c = '\n' || c = '\r' || c = '\x0b' || c = '\x0c'

/-- Python `str.strip()`: drop leading and trailing whitespace. -/
def pyStrip (l : List Char) : List Char :=
  ((l.dropWhile isPyWhitespace).reverse.dropWhile isPyWhitespace).reverse

/-- Helper for `pySplitlines`: accumulates the current line (reversed). -/
def splitlinesGo (acc : List Char) : List Char → List (List Char)
  | [] => if acc.isEmpty then [] else [acc.reverse]
  | '\r' :: '\n' :: rest => acc.reverse :: splitlinesGo [] rest
  | '\r' :: rest => acc.reverse :: splitlinesGo [] rest
  | '\n' :: rest => acc.reverse :: splitlinesGo [] rest
  | c :: rest => splitlinesGo (c :: acc) rest

/-- Python `str.splitlines()`: split at line boundaries, no trailing empty line. -/
def pySplitlines (l : List Char) : List (List Char) :=
  splitlinesGo [] l

/-- Python's `pat in hay` substring test. -/
def containsSub (hay pat : List Char) : Bool :=
  match hay with
  | [] => pat.isEmpty
  | _ :: rest => pat.isPrefixOf hay || containsSub rest pat

/-- The line filter of `extract_latex_errors`:
`any(x in line.lower() for x in ["error", "!", "fatal"])`. -/
def matchesErr (line : List Char) : Bool :=
  let low := line.map Char.toLower
  containsSub low "error".data || containsSub low "!".data ||
    containsSub low "fatal".data

/-- The `for` loop of `extract_latex_errors`, accumulating
`error_lines`: each matching line is appended stripped
(`error_lines.append(line.strip())`). -/
def extractGo : List (List Char) → List (List Char)
  | [] => []
  | line :: rest =>
    if matchesErr line then pyStrip line :: extractGo rest else extractGo rest

/-- The separator of `"\n".join(error_lines)`. -/
def nlSep : List Char := ['\n']

/-- Embeds `extract_latex_errors` (converter.py:165-178): keep the lines of
`stderr` that contain (case-insensitively) `error`, `!` or `fatal`,
stripped, joined by newlines; if no line matches, return `stderr`
itself. -/
def extract_latex_errors (stderr : String) : String :=
  let error_lines := extractGo (pySplitlines stderr.data)
  if error_lines.isEmpty then stderr
  else ⟨List.intercalate nlSep error_lines⟩

/-- The filter as C2 words it: the kept lines themselves (not stripped)
are joined.  Stated from the claim's text, for comparison with the
code's `extract_latex_errors`. -/
def extract_latex_errors_claimed (stderr : String) : String :=
  let kept := (pySplitlines stderr.data).filter matchesErr
  if kept.isEmpty then stderr else ⟨List.intercalate nlSep kept⟩

/-- The loop accumulator equals stripping the matching lines, kept in
their original order. -/
theorem extractGo_eq_filter (ls : List (List Char)) :
    extractGo ls = (ls.filter matchesErr).map pyStrip := by
  induction ls with
  | nil => rfl
  | cons line rest ih =>
    by_cases h : matchesErr line = true
    · simp [extractGo, List.filter, h, ih]
    · simp [extractGo, List.filter, h, ih]

/-- C2 counterexample: on the line `" ! e"` (which matches the filter),
the code returns the stripped line `"! e"`, while the claim predicts the
kept line itself, `" ! e"`. -/
theorem extract_latex_errors_counterexample :
    extract_latex_errors " ! e" = "! e" ∧
    extract_latex_errors_claimed " ! e" = " ! e" ∧
    extract_latex_errors " ! e" ≠ extract_latex_errors_claimed " ! e" := by
  refine ⟨by decide, by decide, by decide⟩

/-- C2 amended: the result keeps exactly the matching lines, in their
original order, each stripped of leading and trailing whitespace, joined
with newlines; when no line matches, the raw stream is returned
verbatim. -/
theorem extract_latex_errors_spec (s : String) :
    extract_latex_errors s =
      (if ((pySplitlines s.data).filter matchesErr).isEmpty then s
       else ⟨List.intercalate nlSep
         (((pySplitlines s.data).filter matchesErr).map pyStrip)⟩) := by
  unfold extract_latex_errors
  rw [extractGo_eq_filter]
  by_cases h : ((pySplitlines s.data).filter matchesErr).isEmpty = true
  · simp_all
  · simp only [List.isEmpty_iff] at h ⊢
    rw [if_neg, if_neg h]
    simp [h]

/-! ## The batch orchestrator `TikZConverter` (converter.py:181-273)

`TikZConverter` is constructed over the three component interfaces
(`interfaces.py`); the batch claims quantify over arbitrary component
behaviour, so the components are modelled as a record of fallible
operations.  Progress-bar and console calls have no observable effect on
the state the claims are about and are not modelled. -/

/-- Counters `TikZConverter.stats`: the three counters, started at zero by
`__init__`. -/
structure Stats where
  processed : Nat
  skipped : Nat
  failed : Nat
deriving DecidableEq, Repr

/-- Sum of the three counters. -/
def Stats.total (s : Stats) : Nat := s.processed + s.skipped + s.failed

/-- The injected components (`FileManagerInterface.needs_update`,
`LaTeXCompilerInterface.compile`,
`ImageConverterInterface.convert_pdf_to_png`,
`FileManagerInterface.cleanup_auxiliary_files`), each modelled by the
outcome it produces on given arguments: normal return or a raised
exception. -/
structure Components where
  needsUpdate : Path → Path → Except Err Bool
  compile : Path → Except Err Unit
  convert_pdf_to_png : Path → Path → Except Err Unit
  cleanup_auxiliary_files : Path → Except Err Unit

/-- The `try` block of `process_file` (converter.py:220-237): compile,
then rasterize `<stem>.pdf` next to the source, then clean up; any
exception is caught and turns into `failed += 1` and `False`, full
success into `processed += 1` and `True`. -/
def process_file_try (c : Components) (stats : Stats) (tex png_path : Path) :
    Stats × Bool :=
  match c.compile tex with
  | .error _ => ({stats with failed := stats.failed + 1}, false)
  | .ok _ =>
    match c.convert_pdf_to_png ⟨tex.dir, tex.stem, ".pdf"⟩ png_path with
    | .error _ => ({stats with failed := stats.failed + 1}, false)
    | .ok _ =>
      match c.cleanup_auxiliary_files tex with
      | .error _ => ({stats with failed := stats.failed + 1}, false)
      | .ok _ => ({stats with processed := stats.processed + 1}, true)

/-- Embeds `TikZConverter.process_file` (converter.py:208-237).  The
`needs_update` call sits outside the `try` block, so an exception it
raises propagates to the caller (hence the `Except` result); with
`force` set it is short-circuited away and never called. -/
def process_file (figures : String) (c : Components) (force : Bool)
    (stats : Stats) (tex : Path) : Except Err (Stats × Bool) :=
  let png_path : Path := ⟨figures, tex.stem, ".png"⟩
  if force then .ok (process_file_try c stats tex png_path)
  else
    match c.needsUpdate tex png_path with
    | .error e => .error e
    | .ok false => .ok ({stats with skipped := stats.skipped + 1}, false)
    | .ok true => .ok (process_file_try c stats tex png_path)

/-- The `for tex_file in tex_files` loop of `TikZConverter.run`
(converter.py:263-266), threading the statistics. -/
def runLoop (figures : String) (c : Components) (force : Bool) :
    Stats → List Path → Except Err Stats
  | stats, [] => .ok stats
  | stats, tex :: rest =>
    match process_file figures c force stats tex with
    | .error e => .error e
    | .ok (stats2, _) => runLoop figures c force stats2 rest

/-- Embeds `TikZConverter.run` (converter.py:239-273) on a fresh converter
(counters start at zero): `tex_files` is the enumerated list of `*.tex`
files; an empty enumeration returns immediately with zero counts. -/
def run (figures : String) (c : Components) (tex_files : List Path)
    (force : Bool) : Except Err Stats :=
  if tex_files.isEmpty then .ok ⟨0, 0, 0⟩
  else runLoop figures c force ⟨0, 0, 0⟩ tex_files

/-- The `try` block leaves the statistics with either `processed` or
`failed` incremented, never anything else. -/
theorem process_file_try_cases (c : Components) (stats : Stats)
    (tex png : Path) (stats2 : Stats) (b : Bool)
    (h : process_file_try c stats tex png = (stats2, b)) :
    stats2 = {stats with processed := stats.processed + 1} ∨
    stats2 = {stats with failed := stats.failed + 1} := by
  unfold process_file_try at h
  rcases hc : c.compile tex with e | u <;> rw [hc] at h
  · exact Or.inr (congrArg Prod.fst h).symm
  · rcases hv : c.convert_pdf_to_png ⟨tex.dir, tex.stem, ".pdf"⟩ png with e | v <;>
      rw [hv] at h
    · exact Or.inr (congrArg Prod.fst h).symm
    · rcases hk : c.cleanup_auxiliary_files tex with e | w <;> rw [hk] at h
      · exact Or.inr (congrArg Prod.fst h).symm
      · exact Or.inl (congrArg Prod.fst h).symm

/-- Every normal return of `process_file` changes the statistics by
exactly one increment of exactly one counter. -/
theorem process_file_step_cases (figures : String) (c : Components)
    (force : Bool) (stats : Stats) (tex : Path) (stats2 : Stats) (b : Bool)
    (h : process_file figures c force stats tex = .ok (stats2, b)) :
    stats2 = {stats with processed := stats.processed + 1} ∨
    stats2 = {stats with skipped := stats.skipped + 1} ∨
    stats2 = {stats with failed := stats.failed + 1} := by
  simp only [process_file] at h
  cases force with
  | true =>
    simp only [if_true] at h
    rcases process_file_try_cases c stats tex ⟨figures, tex.stem, ".png"⟩
      stats2 b (Except.ok.inj h) with h2 | h2
    · exact Or.inl h2
    · exact Or.inr (Or.inr h2)
  | false =>
    simp only [Bool.false_eq_true, if_false] at h
    rcases hn : c.needsUpdate tex ⟨figures, tex.stem, ".png"⟩ with e | bu <;>
      rw [hn] at h
    · exact absurd h (by simp)
    · cases bu with
      | false =>
        exact Or.inr (Or.inl (congrArg Prod.fst (Except.ok.inj h)).symm)
      | true =>
        rcases process_file_try_cases c stats tex ⟨figures, tex.stem, ".png"⟩
          stats2 b (Except.ok.inj h) with h2 | h2
        · exact Or.inl h2
        · exact Or.inr (Or.inr h2)

/-- A normal `process_file` return raises the counter total by one. -/
theorem process_file_total (figures : String) (c : Components)
    (force : Bool) (stats : Stats) (tex : Path) (stats2 : Stats) (b : Bool)
    (h : process_file figures c force stats tex = .ok (stats2, b)) :
    stats2.total = stats.total + 1 := by
  rcases process_file_step_cases figures c force stats tex stats2 b h with
    h2 | h2 | h2 <;> subst h2 <;> simp [Stats.total] <;> omega

/-- Along a normally-terminating batch loop, the counter total grows by
the number of files traversed. -/
theorem runLoop_total (figures : String) (c : Components) (force : Bool) :
    ∀ (tex_files : List Path) (stats stats2 : Stats),
    runLoop figures c force stats tex_files = .ok stats2 →
    stats2.total = stats.total + tex_files.length := by
  intro tex_files
  induction tex_files with
  | nil =>
    intro stats stats2 h
    simp only [runLoop] at h
    simp [Except.ok.inj h]
  | cons tex rest ih =>
    intro stats stats2 h
    simp only [runLoop] at h
    rcases hp : process_file figures c force stats tex with e | p <;> rw [hp] at h
    · exact absurd h (by simp)
    · obtain ⟨s1, b⟩ := p
      have h1 := process_file_total figures c force stats tex s1 b hp
      have h2 := ih s1 stats2 h
      simp only [List.length_cons]
      omega

/-- C3.  Per handled file exactly one of the three counters is
incremented, exactly once; and a batch run that completes normally ends
with `processed + skipped + failed` equal to the number of enumerated
source files. -/
theorem batch_statistics_invariant :
    (∀ (figures : String) (c : Components) (force : Bool) (stats : Stats)
       (tex : Path) (stats2 : Stats) (b : Bool),
       process_file figures c force stats tex = .ok (stats2, b) →
         stats2 = {stats with processed := stats.processed + 1} ∨
         stats2 = {stats with skipped := stats.skipped + 1} ∨
         stats2 = {stats with failed := stats.failed + 1}) ∧
    (∀ (figures : String) (c : Components) (tex_files : List Path)
       (force : Bool) (stats2 : Stats),
       run figures c tex_files force = .ok stats2 →
         stats2.total = tex_files.length) := by
  constructor
  · exact process_file_step_cases
  · intro figures c tex_files force stats2 h
    unfold run at h
    by_cases he : tex_files.isEmpty = true
    · rw [if_pos he] at h
      rw [List.isEmpty_iff] at he
      subst he
      simp [← Except.ok.inj h, Stats.total]
    · rw [if_neg he] at h
      have := runLoop_total figures c force tex_files ⟨0, 0, 0⟩ stats2 h
      simpa [Stats.total] using this

/-- Components whose every operation succeeds, for concrete runs. -/
def cOk : Components where
  needsUpdate := fun _ _ => .ok true
  compile := fun _ => .ok ()
  convert_pdf_to_png := fun _ _ => .ok ()
  cleanup_auxiliary_files := fun _ => .ok ()

/-- Witness for C3 on a concrete one-file batch with all-succeeding
components. -/
theorem batch_statistics_invariant_witness :
    ((⟨1, 0, 0⟩ : Stats) = {(⟨0, 0, 0⟩ : Stats) with processed := 0 + 1} ∨
     (⟨1, 0, 0⟩ : Stats) = {(⟨0, 0, 0⟩ : Stats) with skipped := 0 + 1} ∨
     (⟨1, 0, 0⟩ : Stats) = {(⟨0, 0, 0⟩ : Stats) with failed := 0 + 1}) ∧
    Stats.total ⟨1, 0, 0⟩ = [texA].length := by
  exact ⟨batch_statistics_invariant.1 "Assets/figures" cOk true ⟨0, 0, 0⟩ texA
           ⟨1, 0, 0⟩ true rfl,
         batch_statistics_invariant.2 "Assets/figures" cOk [texA] true
           ⟨1, 0, 0⟩ rfl⟩

/-- When not every step of the `try` block succeeds, the block ends in
its `except` arm: `failed` is incremented and `False` returned. -/
theorem process_file_try_failed (c : Components) (stats : Stats)
    (tex png : Path)
    (herr : ¬ (c.compile tex = .ok () ∧
      c.convert_pdf_to_png ⟨tex.dir, tex.stem, ".pdf"⟩ png = .ok () ∧
      c.cleanup_auxiliary_files tex = .ok ())) :
    process_file_try c stats tex png =
      ({stats with failed := stats.failed + 1}, false) := by
  unfold process_file_try
  rcases hc : c.compile tex with e | u
  · rfl
  · obtain ⟨⟩ := u
    rcases hv : c.convert_pdf_to_png ⟨tex.dir, tex.stem, ".pdf"⟩ png with e | v
    · rfl
    · obtain ⟨⟩ := v
      rcases hk : c.cleanup_auxiliary_files tex with e | w
      · rfl
      · obtain ⟨⟩ := w
        exact absurd ⟨hc, hv, hk⟩ herr

/-- C4.  An error in the compile, rasterize or cleanup step of a file
that entered the pipeline (forced, or stale per a normal staleness
check) is caught at the per-file boundary: `process_file` returns
normally with `failed` incremented, and the batch loop continues with
the remaining files. -/
theorem per_file_failure_isolated (figures : String) (c : Components)
    (force : Bool) (stats : Stats) (tex : Path)
    (hforce : force = true ∨
      c.needsUpdate tex ⟨figures, tex.stem, ".png"⟩ = .ok true)
    (herr : ¬ (c.compile tex = .ok () ∧
      c.convert_pdf_to_png ⟨tex.dir, tex.stem, ".pdf"⟩
        ⟨figures, tex.stem, ".png"⟩ = .ok () ∧
      c.cleanup_auxiliary_files tex = .ok ())) :
    process_file figures c force stats tex =
      .ok ({stats with failed := stats.failed + 1}, false) ∧
    ∀ rest, runLoop figures c force stats (tex :: rest) =
      runLoop figures c force {stats with failed := stats.failed + 1} rest := by
  have hmain : process_file figures c force stats tex =
      .ok ({stats with failed := stats.failed + 1}, false) := by
    simp only [process_file]
    cases force with
    | true =>
      simp only [if_true]
      exact congrArg Except.ok (process_file_try_failed c stats tex _ herr)
    | false =>
      simp only [Bool.false_eq_true, if_false]
      rcases hforce with hf | hn
      · exact absurd hf (by simp)
      · rw [hn]
        exact congrArg Except.ok (process_file_try_failed c stats tex _ herr)
  refine ⟨hmain, fun rest => ?_⟩
  simp only [runLoop, hmain]

/-- A second source file, used in concrete batches. -/
def texB : Path := ⟨"Assets/TikZ", "fig2", ".tex"⟩

/-- Components failing compilation on `texB` only. -/
def cMixed : Components :=
  { cOk with compile := fun t =>
      if t = texB then .error (.latexError "LaTeX compilation failed: boom")
      else .ok () }

/-- Witness for C4: a concrete compile failure is absorbed into
`failed += 1` and the loop goes on. -/
theorem per_file_failure_isolated_witness :
    process_file "Assets/figures" cMixed true ⟨0, 0, 0⟩ texB =
      .ok (({(⟨0, 0, 0⟩ : Stats) with failed := 0 + 1}), false) ∧
    ∀ rest, runLoop "Assets/figures" cMixed true ⟨0, 0, 0⟩ (texB :: rest) =
      runLoop "Assets/figures" cMixed true
        {(⟨0, 0, 0⟩ : Stats) with failed := 0 + 1} rest :=
  per_file_failure_isolated "Assets/figures" cMixed true ⟨0, 0, 0⟩ texB
    (Or.inl rfl) (by decide)

/-- Whether `compile` raises on this file. -/
def compileFails (c : Components) (tex : Path) : Bool :=
  match c.compile tex with
  | .ok _ => false
  | .error _ => true

/-- All three pipeline steps succeed on this file. -/
def pipelineOk (figures : String) (c : Components) (tex : Path) : Prop :=
  c.compile tex = .ok () ∧
  c.convert_pdf_to_png ⟨tex.dir, tex.stem, ".pdf"⟩
    ⟨figures, tex.stem, ".png"⟩ = .ok () ∧
  c.cleanup_auxiliary_files tex = .ok ()

instance (figures : String) (c : Components) (tex : Path) :
    Decidable (pipelineOk figures c tex) := by
  unfold pipelineOk
  exact inferInstance

/-- A fully succeeding file under `force` ends with `processed`
incremented. -/
theorem process_file_force_ok (figures : String) (c : Components)
    (stats : Stats) (tex : Path) (h : pipelineOk figures c tex) :
    process_file figures c true stats tex =
      .ok ({stats with processed := stats.processed + 1}, true) := by
  obtain ⟨hc, hv, hk⟩ := h
  simp only [process_file, if_true, process_file_try, hc, hv, hk]

/-- A compile failure under `force` ends with `failed` incremented. -/
theorem process_file_force_compile_failed (figures : String)
    (c : Components) (stats : Stats) (tex : Path)
    (h : compileFails c tex = true) :
    process_file figures c true stats tex =
      .ok ({stats with failed := stats.failed + 1}, false) := by
  simp only [process_file, if_true]
  refine congrArg Except.ok (process_file_try_failed c stats tex _ ?_)
  rintro ⟨hc, -, -⟩
  rw [compileFails, hc] at h
  exact absurd h (by simp)

/-- Counting a predicate and its negation over a list covers it. -/
theorem countP_not_add (p : Path → Bool) (l : List Path) :
    l.countP (fun t => !(p t)) + l.countP p = l.length := by
  induction l with
  | nil => simp
  | cons x l ih =>
    by_cases h : p x = true <;> simp [List.countP_cons, h, ← ih] <;> omega

/-- Forced batch loop over files that either fail compilation or fully
succeed: counts accumulate accordingly and the loop returns normally. -/
theorem runLoop_force_counts (figures : String) (c : Components) :
    ∀ (tex_files : List Path) (stats : Stats),
    (∀ tex ∈ tex_files, compileFails c tex = true ∨ pipelineOk figures c tex) →
    runLoop figures c true stats tex_files =
      .ok ⟨stats.processed + tex_files.countP (fun t => !(compileFails c t)),
           stats.skipped,
           stats.failed + tex_files.countP (compileFails c)⟩ := by
  intro tex_files
  induction tex_files with
  | nil =>
    intro stats h
    simp [runLoop]
  | cons tex rest ih =>
    intro stats h
    have htex := h tex (List.mem_cons_self tex rest)
    have hrest := fun t ht => h t (List.mem_cons_of_mem tex ht)
    rcases htex with hf | hok
    · simp only [runLoop,
        process_file_force_compile_failed figures c stats tex hf]
      rw [ih _ hrest]
      refine congrArg Except.ok ?_
      simp only [Stats.mk.injEq, List.countP_cons, hf]
      refine ⟨?_, trivial, ?_⟩ <;> simp <;> omega
    · have hf : compileFails c tex = false := by
        rw [compileFails, hok.1]
      simp only [runLoop, process_file_force_ok figures c stats tex hok]
      rw [ih _ hrest]
      refine congrArg Except.ok ?_
      simp only [Stats.mk.injEq, List.countP_cons, hf]
      refine ⟨?_, trivial, ?_⟩ <;> simp <;> omega

/-- C5.  A forced batch over files of which exactly the compile-failing
ones fail and the rest fully succeed terminates normally with
`processed = N - K`, `skipped = 0`, `failed = K`, where `K` is the
number of compile-failing files. -/
theorem run_force_counts (figures : String) (c : Components)
    (tex_files : List Path)
    (h : ∀ tex ∈ tex_files,
      compileFails c tex = true ∨ pipelineOk figures c tex) :
    run figures c tex_files true =
      .ok ⟨tex_files.length - tex_files.countP (compileFails c), 0,
           tex_files.countP (compileFails c)⟩ := by
  unfold run
  by_cases he : tex_files.isEmpty = true
  · rw [if_pos he]
    rw [List.isEmpty_iff] at he
    subst he
    simp
  · rw [if_neg he, runLoop_force_counts figures c tex_files ⟨0, 0, 0⟩ h]
    refine congrArg Except.ok ?_
    have hcv := countP_not_add (compileFails c) tex_files
    simp only [Stats.mk.injEq]
    refine ⟨?_, trivial, ?_⟩ <;> simp <;> omega

/-- Witness for C5: a two-file forced batch where compilation fails on
exactly one file. -/
theorem run_force_counts_witness :
    run "Assets/figures" cMixed [texA, texB] true =
      .ok ⟨[texA, texB].length - [texA, texB].countP (compileFails cMixed), 0,
           [texA, texB].countP (compileFails cMixed)⟩ :=
  run_force_counts "Assets/figures" cMixed [texA, texB] (by decide)

/-- The witness filesystem for C9: the output PNG exists, the source is
missing. -/
def fs9 : FS :=
  { pexists := fun p => decide (p = pngA)
    mtime := fun _ => 100 }

/-- Components whose staleness check is the real `FileManager` over
`fs9`. -/
def c9 : Components := { cOk with needsUpdate := needs_update fs9 }

/-- C9.  The staleness check runs outside the `try` boundary: when the
output exists but the source's `stat` raises, `process_file` propagates
the exception with no counter incremented (it returns no statistics at
all), and the batch loop — hence the whole run — aborts with that
exception. -/
theorem needs_update_error_aborts (fs : FS) (figures : String)
    (c : Components) (tex : Path)
    (hc : c.needsUpdate = needs_update fs)
    (hpng : fs.pexists ⟨figures, tex.stem, ".png"⟩ = true)
    (htex : fs.pexists tex = false) :
    (∀ stats, process_file figures c false stats tex =
      .error (.fileNotFound tex.name)) ∧
    (∀ stats rest, runLoop figures c false stats (tex :: rest) =
      .error (.fileNotFound tex.name)) ∧
    (∀ rest, run figures c (tex :: rest) false =
      .error (.fileNotFound tex.name)) := by
  have hstat : fs.stat tex = .error (.fileNotFound tex.name) := by
    unfold FS.stat
    rw [if_neg (by simp [htex])]
  have hnu : c.needsUpdate tex ⟨figures, tex.stem, ".png"⟩ =
      .error (.fileNotFound tex.name) := by
    rw [hc]
    unfold needs_update
    rw [if_neg (by simp [hpng]), hstat]
  have hpf : ∀ stats, process_file figures c false stats tex =
      .error (.fileNotFound tex.name) := by
    intro stats
    simp only [process_file, Bool.false_eq_true, if_false, hnu]
  refine ⟨hpf, fun stats rest => ?_, fun rest => ?_⟩
  · simp only [runLoop, hpf]
  · simp only [run]
    rw [if_neg (by simp)]
    simp only [runLoop, hpf]

/-- Witness for C9 at a concrete one-file run. -/
theorem needs_update_error_aborts_witness :
    run "Assets/figures" c9 [texA] false =
      .error (.fileNotFound texA.name) :=
  (needs_update_error_aborts fs9 "Assets/figures" c9 texA rfl
    (by decide) (by decide)).2.2 []

/-! ## `FileManager.cleanup_auxiliary_files` (converter.py:147-162)

Deletion of a file may fail; the outcome of each `unlink` is given by
`unlinkErr : Path → Option String` (`none` means the deletion would
succeed, `some msg` that it raises with message `msg`).  The function
returns the filesystem after the deletions together with the console
messages it printed, in order; the `try`/`except` around each deletion
is embedded directly, so the function returns normally on every
input. -/

/-- Console output of the cleanup loop: a removal notice or the warning
naming the file that could not be removed and the underlying error. -/
inductive CleanupMsg where
  | removed (name : String)
  | failedRemove (name : String) (err : String)
deriving DecidableEq, Repr

/-- The fixed, ordered extension list of the cleanup loop
(converter.py:151). -/
def aux_extensions : List String :=
  [".aux", ".log", ".pdf", ".pdb_latexmk", ".fls"]

/-- The message produced for an existing byproduct file: removal notice
on success, warning with the file's name and the error otherwise. -/
def cleanupMsgFor (unlinkErr : Path → Option String) (c : Path) :
    CleanupMsg :=
  match unlinkErr c with
  | none => .removed c.name
  | some e => .failedRemove c.name e

/-- The `for ext in [...]` loop of `cleanup_auxiliary_files`: for each
extension in order, if `working_dir / f"{base_name}{ext}"` exists,
attempt to delete it; a raised deletion error is caught and reported,
and the loop continues. -/
def cleanupLoop (unlinkErr : Path → Option String) (fsE : Path → Bool)
    (working_dir base_name : String) :
    List String → (Path → Bool) × List CleanupMsg
  | [] => (fsE, [])
  | ext :: rest =>
    let aux : Path := ⟨working_dir, base_name, ext⟩
    if fsE aux then
      match unlinkErr aux with
      | none =>
        let fsE2 := fun p => if p = aux then false else fsE p
        let r := cleanupLoop unlinkErr fsE2 working_dir base_name rest
        (r.1, .removed aux.name :: r.2)
      | some e =>
        let r := cleanupLoop unlinkErr fsE working_dir base_name rest
        (r.1, .failedRemove aux.name e :: r.2)
    else cleanupLoop unlinkErr fsE working_dir base_name rest

/-- Embeds `FileManager.cleanup_auxiliary_files` (converter.py:147-162):
run the loop over the five tracked extensions, rooted at the directory
and stem of `base_path`. -/
def cleanup_auxiliary_files (unlinkErr : Path → Option String)
    (fsE : Path → Bool) (base_path : Path) :
    (Path → Bool) × List CleanupMsg :=
  cleanupLoop unlinkErr fsE base_path.dir base_path.stem aux_extensions

/-- Messages of the cleanup loop: one per candidate that exists, in
extension order, computed against the initial filesystem (valid because
the extensions are distinct). -/
theorem cleanupLoop_msgs (unlinkErr : Path → Option String)
    (working_dir base_name : String) :
    ∀ (exts : List String) (fsE : Path → Bool), exts.Nodup →
    (cleanupLoop unlinkErr fsE working_dir base_name exts).2 =
      exts.filterMap (fun ext =>
        if fsE ⟨working_dir, base_name, ext⟩ then
          some (cleanupMsgFor unlinkErr ⟨working_dir, base_name, ext⟩)
        else none) := by
  intro exts
  induction exts with
  | nil => intro fsE h; rfl
  | cons ext rest ih =>
    intro fsE hnd
    rw [List.nodup_cons] at hnd
    obtain ⟨hmem, hnd2⟩ := hnd
    by_cases hfs : fsE ⟨working_dir, base_name, ext⟩ = true
    · rcases hu : unlinkErr ⟨working_dir, base_name, ext⟩ with - | e
      · simp only [cleanupLoop, hfs, if_true, hu, List.filterMap_cons,
          cleanupMsgFor]
        refine congrArg (List.cons _) ?_
        rw [ih _ hnd2]
        refine List.filterMap_congr (fun e2 he2 => ?_)
        have hx : e2 ≠ ext := fun hcon => hmem (hcon ▸ he2)
        simp [cleanupMsgFor, hx]
      · simp only [cleanupLoop, hfs, if_true, hu, List.filterMap_cons,
          cleanupMsgFor]
        rw [ih _ hnd2]
        refine congrArg (List.cons _) (List.filterMap_congr (fun e2 he2 => ?_))
        simp [cleanupMsgFor]
    · rw [Bool.not_eq_true] at hfs
      simp only [cleanupLoop, hfs, Bool.false_eq_true, if_false,
        List.filterMap_cons]
      exact ih _ hnd2

/-- Paths outside the candidate set are untouched by the cleanup loop. -/
theorem cleanupLoop_fs_other (unlinkErr : Path → Option String)
    (working_dir base_name : String) :
    ∀ (exts : List String) (fsE : Path → Bool) (p : Path),
    ¬ (p.dir = working_dir ∧ p.stem = base_name ∧ p.ext ∈ exts) →
    (cleanupLoop unlinkErr fsE working_dir base_name exts).1 p = fsE p := by
  intro exts
  induction exts with
  | nil => intro fsE p h; rfl
  | cons ext rest ih =>
    intro fsE p hp
    have hrest : ¬ (p.dir = working_dir ∧ p.stem = base_name ∧
        p.ext ∈ rest) := by
      rintro ⟨h1, h2, h3⟩
      exact hp ⟨h1, h2, List.mem_cons_of_mem _ h3⟩
    have hne : p ≠ ⟨working_dir, base_name, ext⟩ := by
      rintro rfl
      exact hp ⟨rfl, rfl, List.mem_cons_self _ _⟩
    by_cases hfs : fsE ⟨working_dir, base_name, ext⟩ = true
    · rcases hu : unlinkErr ⟨working_dir, base_name, ext⟩ with - | e
      · simp only [cleanupLoop, hfs, if_true, hu]
        rw [ih _ p hrest]
        simp [hne]
      · simp only [cleanupLoop, hfs, if_true, hu]
        exact ih _ p hrest
    · rw [Bool.not_eq_true] at hfs
      simp only [cleanupLoop, hfs, Bool.false_eq_true, if_false]
      exact ih _ p hrest

/-- Effect of the cleanup loop on each candidate: deleted exactly when
it existed and its deletion does not fail. -/
theorem cleanupLoop_fs_candidate (unlinkErr : Path → Option String)
    (working_dir base_name : String) :
    ∀ (exts : List String) (fsE : Path → Bool), exts.Nodup →
    ∀ ext2 ∈ exts,
    (cleanupLoop unlinkErr fsE working_dir base_name exts).1
        ⟨working_dir, base_name, ext2⟩ =
      (fsE ⟨working_dir, base_name, ext2⟩ &&
        (unlinkErr ⟨working_dir, base_name, ext2⟩).isSome) := by
  intro exts
  induction exts with
  | nil => intro fsE hnd ext2 hm; exact absurd hm (List.not_mem_nil _)
  | cons ext rest ih =>
    intro fsE hnd ext2 hm
    rw [List.nodup_cons] at hnd
    obtain ⟨hmem, hnd2⟩ := hnd
    by_cases hfs : fsE ⟨working_dir, base_name, ext⟩ = true
    · rcases hu : unlinkErr ⟨working_dir, base_name, ext⟩ with - | e
      · simp only [cleanupLoop, hfs, if_true, hu]
        rcases List.mem_cons.mp hm with rfl | hm2
        · rw [cleanupLoop_fs_other unlinkErr working_dir base_name rest _ _
            (by rintro ⟨-, -, h3⟩; exact hmem h3)]
          simp [hfs, hu]
        · have hx : ext2 ≠ ext := fun hcon => hmem (hcon ▸ hm2)
          rw [ih _ hnd2 ext2 hm2]
          simp [hx]
      · simp only [cleanupLoop, hfs, if_true, hu]
        rcases List.mem_cons.mp hm with rfl | hm2
        · rw [cleanupLoop_fs_other unlinkErr working_dir base_name rest _ _
            (by rintro ⟨-, -, h3⟩; exact hmem h3)]
          simp [hfs, hu]
        · exact ih _ hnd2 ext2 hm2
    · rw [Bool.not_eq_true] at hfs
      simp only [cleanupLoop, hfs, Bool.false_eq_true, if_false]
      rcases List.mem_cons.mp hm with rfl | hm2
      · rw [cleanupLoop_fs_other unlinkErr working_dir base_name rest _ _
          (by rintro ⟨-, -, h3⟩; exact hmem h3)]
        simp [hfs]
      · exact ih _ hnd2 ext2 hm2

/-- C7.  Cleanup attempts the five tracked extensions in fixed order,
deleting `dir/stem+ext` only where it exists; a failed deletion leaves
the file in place, produces the warning naming it and the underlying
error, and does not stop the remaining deletions; paths outside the five
candidates are untouched.  No exception escapes: the embedding returns
normally on every input, mirroring the `try`/`except` around each
deletion. -/
theorem cleanup_auxiliary_files_spec (unlinkErr : Path → Option String)
    (fsE : Path → Bool) (base_path : Path) :
    (cleanup_auxiliary_files unlinkErr fsE base_path).2 =
      aux_extensions.filterMap (fun ext =>
        if fsE ⟨base_path.dir, base_path.stem, ext⟩ then
          some (cleanupMsgFor unlinkErr ⟨base_path.dir, base_path.stem, ext⟩)
        else none) ∧
    (∀ p : Path,
      ¬ (p.dir = base_path.dir ∧ p.stem = base_path.stem ∧
         p.ext ∈ aux_extensions) →
      (cleanup_auxiliary_files unlinkErr fsE base_path).1 p = fsE p) ∧
    (∀ ext ∈ aux_extensions,
      (cleanup_auxiliary_files unlinkErr fsE base_path).1
          ⟨base_path.dir, base_path.stem, ext⟩ =
        (fsE ⟨base_path.dir, base_path.stem, ext⟩ &&
          (unlinkErr ⟨base_path.dir, base_path.stem, ext⟩).isSome)) := by
  refine ⟨?_, ?_, ?_⟩
  · exact cleanupLoop_msgs unlinkErr base_path.dir base_path.stem
      aux_extensions fsE (by decide)
  · exact fun p hp => cleanupLoop_fs_other unlinkErr base_path.dir
      base_path.stem aux_extensions fsE p hp
  · exact fun ext hm => cleanupLoop_fs_candidate unlinkErr base_path.dir
      base_path.stem aux_extensions fsE (by decide) ext hm

/-- Deletion-failure oracle for the C7 witness: removing the `.log`
byproduct raises, everything else succeeds. -/
def unlink7 : Path → Option String := fun p =>
  if p.ext = ".log" then some "Permission denied" else none

/-- Filesystem for the C7 witness: all five byproducts of `texA` exist,
plus an unrelated file. -/
def fs7 : Path → Bool := fun p =>
  decide (p.dir = "Assets/TikZ" && p.stem = "fig") || decide (p = pngA)

/-- Witness for C7 at concrete inputs: the unrelated output file is
untouched, the failing `.log` deletion leaves the file, and the later
`.fls` candidate is still deleted. -/
theorem cleanup_auxiliary_files_spec_witness :
    (cleanup_auxiliary_files unlink7 fs7 texA).1 pngA = fs7 pngA ∧
    (cleanup_auxiliary_files unlink7 fs7 texA).1
        ⟨texA.dir, texA.stem, ".log"⟩ =
      (fs7 ⟨texA.dir, texA.stem, ".log"⟩ &&
        (unlink7 ⟨texA.dir, texA.stem, ".log"⟩).isSome) ∧
    (cleanup_auxiliary_files unlink7 fs7 texA).1
        ⟨texA.dir, texA.stem, ".fls"⟩ =
      (fs7 ⟨texA.dir, texA.stem, ".fls"⟩ &&
        (unlink7 ⟨texA.dir, texA.stem, ".fls"⟩).isSome) :=
  ⟨(cleanup_auxiliary_files_spec unlink7 fs7 texA).2.1 pngA (by decide),
   (cleanup_auxiliary_files_spec unlink7 fs7 texA).2.2
     ".log" (by decide),
   (cleanup_auxiliary_files_spec unlink7 fs7 texA).2.2
     ".fls" (by decide)⟩

/-! ## Subprocesses, directory validation, and converter construction

Observable actions (directory creation, directory validation, probing
for an executable with `shutil.which`, launching a subprocess) are
recorded as an ordered event trace; a function returns the events it
performed before returning or raising. -/

/-- An observable action of the startup and compile paths. -/
inductive Event where
  | mkdirCall (p : String)
  | validateCall
  | probe (cmd : String)
  | runProc (cmd : String)
deriving DecidableEq, Repr

/-- Outcome of one external subprocess invocation. -/
inductive ProcResult where
  | success
  | failure (stderr : String)
deriving DecidableEq, Repr

/-- Python `str(path)`: the full path string. -/
def Path.str (p : Path) : String := p.dir ++ "/" ++ p.name

/-- Embeds `LaTeXCompiler.compile` (converter.py:97-125): raise
`FileNotFoundError` when the source is missing — before any subprocess
is started — otherwise invoke the compiler once; on a non-zero exit
raise `LaTeXError` with the filtered diagnostics. -/
def LaTeXCompiler.compile (fsE : Path → Bool) (latex_command : String)
    (proc : ProcResult) (tex_file : Path) : List Event × Except Err Unit :=
  if fsE tex_file = false then
    ([], .error (.fileNotFound ("LaTeX file not found: " ++ tex_file.str)))
  else
    ([.runProc latex_command],
     match proc with
     | .success => .ok ()
     | .failure stderr =>
       .error (.latexError ("LaTeX compilation failed: " ++
         extract_latex_errors stderr)))

/-- C8.  Compiling a nonexistent source raises `FileNotFoundError`
(the spec's `SourceNotFound`) with an empty event trace: the external
compiler is never launched. -/
theorem compile_missing_source (fsE : Path → Bool) (latex_command : String)
    (proc : ProcResult) (tex_file : Path) (h : fsE tex_file = false) :
    LaTeXCompiler.compile fsE latex_command proc tex_file =
      ([], .error (.fileNotFound
        ("LaTeX file not found: " ++ tex_file.str))) := by
  simp [LaTeXCompiler.compile, h]

/-- Witness for C8 on an empty filesystem. -/
theorem compile_missing_source_witness :
    LaTeXCompiler.compile (fun _ => false) "pdflatex" .success texA =
      ([], .error (.fileNotFound
        ("LaTeX file not found: " ++ texA.str))) :=
  compile_missing_source (fun _ => false) "pdflatex" .success texA rfl

/-- The directory-level filesystem facts `directories.py` consults:
existence, directory-ness, and the readability/writability bits behind
`os.access`.  Directory paths are plain strings here. -/
structure DirFS where
  dexists : String → Bool
  isDir : String → Bool
  readable : String → Bool
  writable : String → Bool

/-- Model of `os.access(p, os.R_OK)`: false for a nonexistent path. -/
def os_access_r (fs : DirFS) (p : String) : Bool :=
  fs.dexists p && fs.readable p

/-- Model of `os.access(p, os.W_OK)`: false for a nonexistent path. -/
def os_access_w (fs : DirFS) (p : String) : Bool :=
  fs.dexists p && fs.writable p

/-- The `Directories` dataclass (directories.py:7-12). -/
structure Directories where
  tikz : String
  figures : String
deriving DecidableEq, Repr

/-- Embeds `Directories.validate` (directories.py:43-52): four checks in
order, each raising its own error; note that the figures directory is
checked only for writability via `os.access`, never for existence. -/
def Directories.validate (fs : DirFS) (d : Directories) : Except Err Unit :=
  if fs.dexists d.tikz = false then
    .error (.fileNotFound ("TikZ directory does not exist: " ++ d.tikz))
  else if fs.isDir d.tikz = false then
    .error (.notADirectory ("TikZ path is not a directory: " ++ d.tikz))
  else if os_access_r fs d.tikz = false then
    .error (.permissionError ("Cannot read from TikZ directory: " ++ d.tikz))
  else if os_access_w fs d.figures = false then
    .error (.permissionError ("Cannot write to figures directory: " ++
      d.figures))
  else .ok ()

/-- C10.  When the tikz directory passes its three checks and the
figures directory does not exist, `validate` raises the write-permission
error naming the figures directory — never a not-found error — because
`os.access(missing, W_OK)` is false and existence of the figures path is
never checked directly. -/
theorem validate_missing_figures (fs : DirFS) (t f : String)
    (h1 : fs.dexists t = true) (h2 : fs.isDir t = true)
    (h3 : fs.readable t = true) (h4 : fs.dexists f = false) :
    Directories.validate fs ⟨t, f⟩ =
      .error (.permissionError
        ("Cannot write to figures directory: " ++ f)) ∧
    ∀ msg, Directories.validate fs ⟨t, f⟩ ≠ .error (.fileNotFound msg) := by
  have hmain : Directories.validate fs ⟨t, f⟩ =
      .error (.permissionError
        ("Cannot write to figures directory: " ++ f)) := by
    simp [Directories.validate, os_access_r, os_access_w, h1, h2, h3, h4]
  exact ⟨hmain, fun msg => by rw [hmain]; simp⟩

/-- Filesystem for the C10 witness: only the tikz directory exists. -/
def dfs10 : DirFS :=
  { dexists := fun p => decide (p = "T")
    isDir := fun _ => true
    readable := fun _ => true
    writable := fun _ => true }

/-- Witness for C10 at a concrete filesystem. -/
theorem validate_missing_figures_witness :
    Directories.validate dfs10 ⟨"T", "F"⟩ =
      .error (.permissionError
        ("Cannot write to figures directory: " ++ "F")) :=
  (validate_missing_figures dfs10 "T" "F"
    (by decide) rfl rfl (by decide)).1

/-- Path join used for the default directories (`base / "Assets" / ...`,
with an empty base path as in `main`). -/
def pathJoin (a b : String) : String :=
  if a = "" then b else a ++ "/" ++ b

/-- Model of `Path.mkdir(parents=True, exist_ok=True)`: a no-op on an
existing path, otherwise the created directory exists, is a directory,
and is accessible. -/
def DirFS.mkdirP (fs : DirFS) (p : String) : DirFS :=
  if fs.dexists p then fs
  else
    { dexists := fun q => if q = p then true else fs.dexists q
      isDir := fun q => if q = p then true else fs.isDir q
      readable := fun q => if q = p then true else fs.readable q
      writable := fun q => if q = p then true else fs.writable q }

/-- The construction half of `Directories.create` (directories.py:28-41)
after the explicit-path existence checks: pick explicit or default
paths, create the default ones. -/
def createBuild (fs : DirFS) (base_path : String)
    (tikz_path figures_path : Option String) :
    List Event × (Directories × DirFS) :=
  let tikz := match tikz_path with
    | some t => t
    | none => pathJoin base_path "Assets/TikZ"
  let figures := match figures_path with
    | some f => f
    | none => pathJoin base_path "Assets/figures"
  let r1 : List Event × DirFS := match tikz_path with
    | some _ => ([], fs)
    | none => ([.mkdirCall tikz], fs.mkdirP tikz)
  let r2 : List Event × DirFS := match figures_path with
    | some _ => ([], r1.2)
    | none => ([.mkdirCall figures], r1.2.mkdirP figures)
  (r1.1 ++ r2.1, (⟨tikz, figures⟩, r2.2))

/-- Embeds `Directories.create` (directories.py:14-41): an explicit path
that does not exist raises `FileNotFoundError` (tikz checked first);
otherwise the directories are built, defaults being created on disk. -/
def Directories.create (fs : DirFS) (base_path : String)
    (tikz_path figures_path : Option String) :
    List Event × Except Err (Directories × DirFS) :=
  match tikz_path with
  | some t =>
    if fs.dexists t = false then
      ([], .error (.fileNotFound ("TikZ directory does not exist: " ++ t)))
    else
      match figures_path with
      | some f =>
        if fs.dexists f = false then
          ([], .error (.fileNotFound
            ("Output directory does not exist: " ++ f)))
        else
          let r := createBuild fs base_path tikz_path figures_path
          (r.1, .ok r.2)
      | none =>
        let r := createBuild fs base_path tikz_path figures_path
        (r.1, .ok r.2)
  | none =>
    match figures_path with
    | some f =>
      if fs.dexists f = false then
        ([], .error (.fileNotFound
          ("Output directory does not exist: " ++ f)))
      else
        let r := createBuild fs base_path tikz_path figures_path
        (r.1, .ok r.2)
    | none =>
      let r := createBuild fs base_path tikz_path figures_path
      (r.1, .ok r.2)

/-- The host as the tool-probing code sees it: the platform and which
executables `shutil.which` finds. -/
structure Host where
  isWindows : Bool
  which : String → Bool

/-- Embeds `ImageConverter._get_imagemagick_command`
(converter.py:41-57): on Windows only `magick.exe` is probed; elsewhere
`magick` then `convert`; raises `ImageMagickError` when none is
found. -/
def ImageConverter.get_imagemagick_command (h : Host) :
    List Event × Except Err String :=
  if h.isWindows then
    if h.which "magick.exe" then ([.probe "magick.exe"], .ok "magick.exe")
    else ([.probe "magick.exe"],
      .error (.imageMagickError
        "ImageMagick not found. Please install ImageMagick."))
  else
    if h.which "magick" then ([.probe "magick"], .ok "magick")
    else if h.which "convert" then
      ([.probe "magick", .probe "convert"], .ok "convert")
    else
      ([.probe "magick", .probe "convert"],
        .error (.imageMagickError
          "ImageMagick not found. Please install ImageMagick."))

/-- The candidate loop of `LaTeXCompiler._get_latex_command`: probe each
candidate in order, first hit wins. -/
def probeFirst (h : Host) : List String → List Event × Option String
  | [] => ([], none)
  | cmd :: rest =>
    if h.which cmd then ([.probe cmd], some cmd)
    else
      let r := probeFirst h rest
      (.probe cmd :: r.1, r.2)

/-- Embeds `LaTeXCompiler._get_latex_command` (converter.py:85-95). -/
def LaTeXCompiler.get_latex_command (h : Host) :
    List Event × Except Err String :=
  let cands := if h.isWindows then ["pdflatex.exe", "latex.exe"]
    else ["pdflatex", "latex"]
  let r := probeFirst h cands
  (r.1, match r.2 with
    | some cmd => .ok cmd
    | none => .error (.latexError
        "LaTeX compiler not found. Please install LaTeX."))

/-- The two directory settings of `Config` that `create_converter`
consumes (`quiet`/`force` do not affect construction). -/
structure Config where
  tikz_dir : Option String
  output_dir : Option String

/-- The assembled converter: its directories and resolved tool
commands. -/
structure Converter where
  directories : Directories
  magick_command : String
  latex_command : String

/-- Embeds `create_converter` (converter.py:276-296): resolve and
validate the directories first, then construct the components — the
rasterizer (`ImageConverter()`) before the compiler (`LaTeXCompiler()`),
following Python's evaluation order of the constructor arguments. -/
def create_converter (host : Host) (fs : DirFS) (config : Config) :
    List Event × Except Err Converter :=
  let cr := Directories.create fs "" config.tikz_dir config.output_dir
  match cr.2 with
  | .error e => (cr.1, .error e)
  | .ok (dirs, fs2) =>
    let ev := cr.1 ++ [Event.validateCall]
    match Directories.validate fs2 dirs with
    | .error e => (ev, .error e)
    | .ok _ =>
      let ic := ImageConverter.get_imagemagick_command host
      match ic.2 with
      | .error e => (ev ++ ic.1, .error e)
      | .ok magick =>
        let lc := LaTeXCompiler.get_latex_command host
        match lc.2 with
        | .error e => (ev ++ ic.1 ++ lc.1, .error e)
        | .ok latex => (ev ++ ic.1 ++ lc.1, .ok ⟨dirs, magick, latex⟩)

/-- A host on which no tool executable is discoverable. -/
def host0 : Host := ⟨false, fun _ => false⟩

/-- A directory filesystem on which every check passes. -/
def dfsAll : DirFS :=
  ⟨fun _ => true, fun _ => true, fun _ => true, fun _ => true⟩

/-- Explicit, existing directories for the C6 runs. -/
def cfg0 : Config := ⟨some "T", some "F"⟩

/-- C6 counterexample: with no tool discoverable, construction does
raise the rasterizer-unavailable error, but only after directory work —
the trace already contains the directory validation — refuting "before
any directory or file work begins". -/
theorem create_converter_counterexample :
    (create_converter host0 dfsAll cfg0).2 =
      .error (.imageMagickError
        "ImageMagick not found. Please install ImageMagick.") ∧
    Event.validateCall ∈ (create_converter host0 dfsAll cfg0).1 := by
  constructor
  · rfl
  · decide

/-- C6 amended.  With neither tool discoverable and directories that
resolve and validate, construction fails with the distinguishable
`ImageMagickError` (the rasterizer is constructed first), raised after
directory resolution and validation but before any file or subprocess
work: the trace contains no subprocess event. -/
theorem create_converter_tools_missing (host : Host) (fs : DirFS)
    (t f : String)
    (hw1 : host.which "magick.exe" = false)
    (hw2 : host.which "magick" = false)
    (hw3 : host.which "convert" = false)
    (ht1 : fs.dexists t = true) (ht2 : fs.isDir t = true)
    (ht3 : fs.readable t = true) (hf1 : fs.dexists f = true)
    (hf2 : fs.writable f = true) :
    (create_converter host fs ⟨some t, some f⟩).2 =
      .error (.imageMagickError
        "ImageMagick not found. Please install ImageMagick.") ∧
    ∀ cmd, Event.runProc cmd ∉ (create_converter host fs ⟨some t, some f⟩).1 := by
  have hcr : Directories.create fs "" (some t) (some f) =
      ([], .ok (⟨t, f⟩, fs)) := by
    simp [Directories.create, createBuild, ht1, hf1]
  have hval : Directories.validate fs ⟨t, f⟩ = .ok () := by
    simp [Directories.validate, os_access_r, os_access_w,
      ht1, ht2, ht3, hf1, hf2]
  constructor
  · cases hW : host.isWindows <;>
      simp [create_converter, hcr, hval,
        ImageConverter.get_imagemagick_command, hW, hw1, hw2, hw3]
  · intro cmd
    cases hW : host.isWindows <;>
      simp [create_converter, hcr, hval,
        ImageConverter.get_imagemagick_command, hW, hw1, hw2, hw3]

/-- Witness for the amended C6 at a concrete host and filesystem. -/
theorem create_converter_tools_missing_witness :
    (create_converter host0 dfsAll ⟨some "T", some "F"⟩).2 =
      .error (.imageMagickError
        "ImageMagick not found. Please install ImageMagick.") :=
  (create_converter_tools_missing host0 dfsAll "T" "F"
    rfl rfl rfl rfl rfl rfl rfl rfl).1

end Tikz2png
